import Mathlib

/-!
Verification of the bridgy-fed federation core against its design
specification.  The protocol dispatch/receive engine (`protocol.py`) is
absent from the corpus — only its tests (`tests/test_protocol.py`) are
present — so its behaviour is modelled from the specification, with the
tests pinning the concrete shapes the spec leaves open.  The ActivityPub
inbox handler is embedded directly from `activitypub.py`.
-/

namespace BridgyFed

/-- Lifecycle status of a canonical object record (spec §3). -/
inductive ObjStatus where
  | fresh
  | complete
  | error
  | ignored
  | failed
  deriving DecidableEq, Repr

/-- Status of a follower edge (spec §3). -/
inductive FStatus where
  | active
  | inactive
  deriving DecidableEq, Repr

/-- A directed follower edge `from_` (follower) → `to` (followee), spec §3.
The source's field name `to` is a reserved token in Lean, hence `to_`. -/
structure Follower where
  from_ : String
  to_ : String
  status : FStatus
  deriving DecidableEq, Repr

/-- Delivery bookkeeping of one receive-pipeline run (spec §4.5 step 4):
the `delivered` and `failed` target lists and the final status. -/
structure DeliveryRecord where
  delivered : List String
  failed : List String
  status : ObjStatus
  deriving DecidableEq, Repr

/-- Modelled from the spec: `protocol.py` is missing from the corpus.
Spec §4.5 step 4 (Deliver): each resolved target is attempted in order via
the owning protocol's `send`; a raised delivery fault (`Except.error`) is
caught and recorded in `failed`, a success is recorded in `delivered`, and
the final status is `complete` when delivery was attempted, `ignored` when
no delivery was warranted. -/
def deliverAll (send : String → Except String Unit) (targets : List String) :
    DeliveryRecord :=
  let step := fun (acc : List String × List String) (t : String) =>
    match send t with
    | Except.ok _ => (acc.1 ++ [t], acc.2)
    | Except.error _ => (acc.1, acc.2 ++ [t])
  let res := targets.foldl step ([], [])
  ⟨res.1, res.2, if targets.isEmpty then ObjStatus.ignored else ObjStatus.complete⟩

/-- Does edge `e` connect the ordered pair `f` → `t`? -/
def matchesEdge (e : Follower) (f t : String) : Bool :=
  e.from_ == f && e.to_ == t

/-- Modelled from the spec: `protocol.py` is missing from the corpus.
Spec §3 (Follower invariant) and §4.5 `follow`: create or reactivate
(never duplicate) the Follower edge — an existing edge for the ordered
(from_, to) pair has its status set back to `active` in place, otherwise a
new `active` edge is appended. -/
def getOrCreateFollower (store : List Follower) (f t : String) : List Follower :=
  if store.any (fun e => matchesEdge e f t) then
    store.map (fun e =>
      if matchesEdge e f t then { e with status := FStatus.active } else e)
  else
    store ++ [⟨f, t, FStatus.active⟩]

/-- Number of edges stored for the ordered pair `f` → `t`. -/
def pairCount (store : List Follower) (f t : String) : Nat :=
  store.countP (fun e => matchesEdge e f t)

/-- A registered protocol implementation, as consulted by id resolution
(spec §4.1/§4.2): its short name, its static no-I/O ownership test
`ownsId`, and its raw content-negotiation fetch used for ownership
probing.  The raw fetch either faults (`Except.error`: network error,
access denied, unparsable document) or reports whether a recognizable
profile/object was retrieved. -/
structure ProtocolImpl where
  name : String
  ownsId : String → Bool
  rawFetch : String → Except String Bool

/-- A stored Canonical Object as far as id resolution consults it
(spec §4.1 step 2): only its `sourceProtocol` matters there. -/
structure StoredRef where
  sourceProtocol : Option String
  deriving DecidableEq, Repr

/-- Modelled from the spec: `protocol.py` is missing from the corpus.
Spec §4.1 step 3: a probe's fetch fault "must not raise; it yields
non-ownership (None)"; a fetch that succeeds owns the id only when it
yielded a recognizable profile/object. -/
def probeOwns (p : ProtocolImpl) (i : String) : Bool :=
  match p.rawFetch i with
  | Except.ok b => b
  | Except.error _ => false

/-- Modelled from the spec: `protocol.py` is missing from the corpus.
Spec §4.1 `forId`: (1) the first registered protocol whose static
`ownsId` test claims the id wins; (2) otherwise a stored Canonical Object
is consulted — owned by its `sourceProtocol` when set, and None (not a
guess) when the stored record has none; (3) only when nothing is stored is
remote content-negotiation probing attempted, in the registry's fixed
priority order; an id for which every stage fails resolves to None. -/
def forId (registry : List ProtocolImpl) (store : String → Option StoredRef)
    (i : String) : Option String :=
  match registry.find? (fun p => p.ownsId i) with
  | some p => some p.name
  | none =>
    match store i with
    | some o => o.sourceProtocol
    | none => (registry.find? (fun p => probeOwns p i)).map (fun p => p.name)

/-- A cross-protocol mirror entry — the mirror's protocol and uri
(spec §3, the `copies` attribute). -/
structure Copy where
  protocol : String
  uri : String
  deriving DecidableEq, Repr

/-- A stored actor or object (its id, origin protocol and registered
`copies` entries), as consulted by the Delivery Target Resolver. -/
structure Canonical where
  id : String
  protocol : String
  copies : List Copy
  deriving DecidableEq, Repr

/-- Modelled from the spec: `protocol.py` is missing from the corpus.
Spec §4.4 steps 2–3 restricted to mention/reply reference resolution, with
the direction of copy handling pinned by the repository's own test
`test_targets_converts_copies_to_originals` ("targets should convert
User/Object.copies to their originals"): a reference naming a registered
`copies` uri is converted back to its original, and the original's
(protocol, target address) is delivered; a reference naming a stored
original resolves to itself; an unresolved reference is dropped silently.
The per-protocol fan-out of users bridged into several protocols is
outside this fragment. -/
def resolveRef (world : List Canonical) (uri : String) : Option (String × String) :=
  match world.find? (fun o => o.copies.any (fun c => c.uri == uri)) with
  | some o => some (o.protocol, o.id ++ ":target")
  | none =>
    match world.find? (fun o => o.id == uri) with
    | some o => some (o.protocol, o.id ++ ":target")
    | none => none

/-- Modelled from the spec: §4.4 step 5 — resolve every candidate
mention/reply reference and deduplicate the resulting (protocol, address)
pairs. -/
def targetsFor (world : List Canonical) (refs : List String) :
    List (String × String) :=
  (refs.filterMap (resolveRef world)).dedup

/-- A stored Canonical Object as touched by `delete`: tombstone flag and
source protocol (spec §3). -/
structure CObj where
  deleted : Bool
  sourceProtocol : Option String
  deriving DecidableEq, Repr

/-- Modelled from the spec: `protocol.py` is missing from the corpus.
Spec §4.5 `delete`: tombstone the referenced Canonical Object
(`deleted = true`, `sourceProtocol = null`). -/
def tombstone (_ : CObj) : CObj := ⟨true, none⟩

/-- Modelled from the spec: `protocol.py` is missing from the corpus.
Spec §4.5 `delete` of an actor: deactivate every Follower edge where that
actor is `from_` or `to` (both directions), leaving unrelated edges
untouched; no edge is removed. -/
def deactivateFor (actorId : String) (fs : List Follower) : List Follower :=
  fs.map (fun f =>
    if f.from_ == actorId || f.to_ == actorId
    then { f with status := FStatus.inactive } else f)

/-- Heap-and-cache model of the Object Cache (spec §3 Ownership, §4.3):
payloads live in a heap addressed by `Nat`, and the cache maps ids to heap
addresses.  Aliasing — the Python hazard the copy-on-read discipline
guards against — is explicit: two holders of the same address observe each
other's in-place mutations. -/
structure CacheState where
  heap : List String
  cache : List (String × Nat)
  deriving DecidableEq, Repr

/-- Payload stored at heap address `a`. -/
def heapGet (s : CacheState) (a : Nat) : Option String := s.heap[a]?

/-- Heap address the cache holds for `i`, if cached. -/
def cacheAddr (s : CacheState) (i : String) : Option Nat :=
  (s.cache.find? (fun e => e.1 == i)).map (fun e => e.2)

/-- Modelled from the spec: `protocol.py` is missing from the corpus.
Spec §4.3/§3: "every cache read returns an independent clone" — the cached
payload is copied into a fresh heap cell and the fresh address is handed
to the caller, while the cache keeps pointing at its own cell. -/
def loadCached (s : CacheState) (i : String) : Option (Nat × CacheState) :=
  match cacheAddr s i with
  | some a =>
    match heapGet s a with
    | some p => some (s.heap.length, ⟨s.heap ++ [p], s.cache⟩)
    | none => none
  | none => none

/-- In-place mutation of the object at heap address `a` (a caller mutating
the value it was handed). -/
def mutateAt (s : CacheState) (a : Nat) (p : String) : CacheState :=
  ⟨s.heap.set a p, s.cache⟩

/-- Strip a leading `http://` or `https://` scheme from an id's
characters. -/
def dropScheme : List Char → List Char
  | 'h' :: 't' :: 't' :: 'p' :: ':' :: '/' :: '/' :: rest => rest
  | 'h' :: 't' :: 't' :: 'p' :: 's' :: ':' :: '/' :: '/' :: rest => rest
  | l => l

/-- Domain of an id: what stands between the scheme and the first `/`. -/
def domainChars (s : String) : List Char :=
  (dropScheme s.data).takeWhile (fun c => c != '/')

/-- Modelled from the spec: §4.4 — "Targets sharing a domain/identity with
the activity's actor are excluded as self-loops". -/
def isSelfLoop (actor target : String) : Bool :=
  actor == target || domainChars actor == domainChars target

/-- Outcome of processing a `follow` activity (spec §4.5 step 3 `follow`
together with the self-loop termination note): final status of the primary
follow, whether a no-content signal is raised to the caller, the synthetic
accept activities sent (accept id, delivered-to target), the primary
activity's delivered targets, and the updated follower store. -/
structure FollowOutcome where
  status : ObjStatus
  noContent : Bool
  acceptsSent : List (String × String)
  delivered : List String
  followers : List Follower
  deriving Repr

/-- Modelled from the spec: the synthetic accept's id is "deterministically
derived from the followee's inbox address and the follow activity's id"
(spec §4.5 `follow`); the concrete shape is pinned by the test
`test_skip_same_domain`. -/
def acceptIdFor (followee followId : String) : String :=
  "https://fa.brid.gy/ap/" ++ followee ++ "/followers#accept-" ++ followId

/-- Modelled from the spec: `protocol.py` is missing from the corpus.
Spec §4.5 `follow` and the self-loop termination note: each followee gets
its Follower edge created or reactivated and a synthetic accept delivered
back to the follower's target, independently of the primary activity;
the primary follow's own targets exclude self-loops (same identity or
domain as the actor), and when every computed target is excluded the
primary activity ends `ignored` with a no-content signal raised to the
caller. -/
def receiveFollow (store : List Follower) (followId actor : String)
    (followees : List String) (send : String → Except String Unit) :
    FollowOutcome :=
  let store2 := followees.foldl (fun s o => getOrCreateFollower s actor o) store
  let accepts := followees.map (fun o => (acceptIdFor o followId, actor ++ ":target"))
  let prim := (followees.filter (fun o => !(isSelfLoop actor o))).map
    (fun o => o ++ ":target")
  if prim.isEmpty then
    ⟨ObjStatus.ignored, true, accepts, [], store2⟩
  else
    let r := deliverAll send prim
    ⟨r.status, false, accepts, r.delivered, store2⟩

/-- The wrapper activity synthesized for an inbound bare object
(spec §4.5 step 1). -/
inductive Wrapper where
  | create (aid : String)
  | update (aid : String)
  | unchanged
  deriving DecidableEq, Repr

/-- Modelled from the spec: `protocol.py` is missing from the corpus.
Spec §4.5 step 1: an inbound bare object with no stored Canonical Object
for its id yields a synthesized `post` (Create) activity with id
`<objectId>#bridgy-fed-create`; a stored record with a different payload
yields an `update` with a timestamped id; stored and unchanged yields the
no-content `ignored` outcome. -/
def synthesizeWrapper (stored : Option String) (objId payload now : String) :
    Wrapper :=
  match stored with
  | none => Wrapper.create (objId ++ "#bridgy-fed-create")
  | some p =>
    if p == payload then Wrapper.unchanged
    else Wrapper.update (objId ++ "#bridgy-fed-update-" ++ now)

/-- Outcome of receiving a bare object: the synthesized activity's id, the
`feed` of active-follower keys, and the delivery record. -/
structure CreateOutcome where
  activityId : String
  feed : List String
  record : DeliveryRecord
  deriving DecidableEq, Repr

/-- Active followers of `author`, in store order. -/
def activeFollowersOf (followers : List Follower) (author : String) :
    List Follower :=
  followers.filter (fun f => f.to_ == author && f.status == FStatus.active)

/-- Modelled from the spec: `protocol.py` is missing from the corpus.
Spec §4.5 steps 1 and 3–4 for an inbound bare object: synthesize the
wrapper activity; fan out to the author's active followers — their keys
populate `feed` and their one synthetic shared/common broadcast address
(`shared:target`, pinned by the tests) is the delivery target when any
active follower exists; deliver and record the result.  An unchanged
stored payload short-circuits to `none` (the no-content signal, status
`ignored`). -/
def receiveBare (stored : Option String) (followers : List Follower)
    (objId payload author now : String) (send : String → Except String Unit) :
    Option CreateOutcome :=
  match synthesizeWrapper stored objId payload now with
  | Wrapper.create aid =>
    let actives := activeFollowersOf followers author
    let targets := if actives.isEmpty then [] else ["shared:target"]
    some ⟨aid, actives.map (fun f => f.from_), deliverAll send targets⟩
  | Wrapper.update aid =>
    let actives := activeFollowersOf followers author
    let targets := if actives.isEmpty then [] else ["shared:target"]
    some ⟨aid, actives.map (fun f => f.from_), deliverAll send targets⟩
  | Wrapper.unchanged => none

/-- JSON-ish values, as far as `InboxHandler.post` (`activitypub.py`)
inspects them. -/
inductive J where
  | null
  | str (s : String)
  | arr (xs : List J)
  | obj (fields : List (String × J))

/-- `obj.get(key)` on a parsed JSON object: the field's value, `null` when
the key is absent or the value is not an object. -/
def jGet (j : J) (k : String) : J :=
  match j with
  | J.obj fields =>
    match fields.find? (fun f => f.1 == k) with
    | some f => f.2
    | none => J.null
  | _ => J.null

/-- Python truthiness of the JSON values the handler tests (`or`,
`if not source`, `if not targets`). -/
def jTruthy : J → Bool
  | J.null => false
  | J.str s => !(s == "")
  | J.arr xs => !xs.isEmpty
  | J.obj fields => !fields.isEmpty

/-- `util.get_list(obj, key)` (webutil): a falsy value is `[]`, a list is
its elements, any other value a singleton. -/
def jGetList (j : J) (k : String) : List J :=
  let v := jGet j k
  if !(jTruthy v) then []
  else
    match v with
    | J.arr xs => xs
    | v2 => [v2]

/-- String content of a JSON value, where the handler uses it as a URL. -/
def jStr : J → String
  | J.str s => s
  | _ => ""

/-- `obj = obj.get('object') or obj` — the unwrapped inner object of the
activity (`activitypub.py`, `InboxHandler.post`). -/
def unwrapped (o : J) : J :=
  if jTruthy (jGet o "object") then jGet o "object" else o

/-- Is the value a JSON object (a Python dict, on which `.get` works)? -/
def isJObj : J → Bool
  | J.obj _ => true
  | _ => false

/-- Is the value usable as a dict key (hashable in Python)?  A JSON array
or object is unhashable; `null` and strings are hashable. -/
def hashableType : J → Bool
  | J.arr _ => false
  | J.obj _ => false
  | _ => true

/-- An uncaught Python exception escaping `InboxHandler.post` — webapp2
turns it into a 500 Internal Server Error, not a client rejection. -/
inductive PyError where
  | attributeError
  | typeError
  deriving DecidableEq, Repr

/-- Observable outcome of one `InboxHandler.post` call: the webmentions
attempted, as (source, target) pairs in order, and the HTTP error status
of the response (`none` = success). -/
structure InboxOutcome where
  webmentions : List (String × String)
  httpStatus : Option Nat
  deriving DecidableEq, Repr

/-- Embedding of `InboxHandler.post` (`src/activitypub.py`, lines 60–102).
The request body is `Option J` (`none` = body that fails JSON parsing,
caught and aborted 400 — the handler's `try/except` wraps only
`json.loads`); granary's external `TYPE_TO_VERB` table is the `typeToVerb`
parameter; `common.error` (in `common.py`, absent from the corpus) is
modelled from the spec: a client/input fault is "surfaced to the caller as
a rejection" (§7), with the handler's default HTTP status 400.  Uncaught
exceptions are `Except.error`: a body parsing to a non-dict raises
`AttributeError` at `obj.get('type')` (line 69), an unhashable `type`
value (array/object) raises `TypeError` inside `TYPE_TO_VERB.get`
(line 69), and a truthy non-dict `object` field raises `AttributeError` at
`obj.get('url')` (line 76) — all 500 server errors, not rejections.  The
webmention sender either succeeds or fails with an optional `http_status`;
per the source, the response status on send failure is the first error's
`http_status` `or 400`, and every send is attempted before that error is
reported. -/
def inboxPost (typeToVerb : String → Option String) (body : Option J)
    (wmSend : String → String → Except (Option Nat) Unit) :
    Except PyError InboxOutcome :=
  match body with
  | none => Except.ok ⟨[], some 400⟩
  | some o =>
    if !(isJObj o) then Except.error PyError.attributeError
    else if !(hashableType (jGet o "type")) then Except.error PyError.typeError
    else
      let verb : Option String :=
        match jGet o "type" with
        | J.str t => typeToVerb t
        | _ => none
      let verbRejected : Bool :=
        match verb with
        | some v => !(v == "") && !(v == "Create") && !(v == "Update")
        | none => false
      if verbRejected then Except.ok ⟨[], some 400⟩
      else
        let inner := unwrapped o
        if !(isJObj inner) then Except.error PyError.attributeError
        else
          let source := jGet inner "url"
          if !(jTruthy source) then Except.ok ⟨[], some 400⟩
          else
            let targets := jGetList inner "inReplyTo" ++ jGetList inner "like"
            if targets.isEmpty then Except.ok ⟨[], some 400⟩
            else
              let sent := targets.map (fun t => (jStr source, jStr t))
              let errs := targets.filterMap (fun t =>
                match wmSend (jStr source) (jStr t) with
                | Except.ok _ => none
                | Except.error e => some e)
              match errs with
              | [] => Except.ok ⟨sent, none⟩
              | e :: _ => Except.ok ⟨sent, some (e.getD 400)⟩

end BridgyFed

namespace BridgyFed

lemma matchesEdge_update (e : Follower) (f t : String) :
    matchesEdge (if matchesEdge e f t then { e with status := FStatus.active } else e) f t
      = matchesEdge e f t := by
  by_cases h : matchesEdge e f t = true
  · rw [if_pos h]
    rfl
  · rw [if_neg h]

lemma pairCount_update (store : List Follower) (f t : String) :
    pairCount (store.map (fun e =>
      if matchesEdge e f t then { e with status := FStatus.active } else e)) f t
      = pairCount store f t := by
  unfold pairCount
  rw [List.countP_map]
  exact List.countP_congr (fun e _ => by
    simpa using matchesEdge_update e f t)

lemma pairCount_pos_of_any (store : List Follower) (f t : String)
    (h : store.any (fun e => matchesEdge e f t) = true) :
    0 < pairCount store f t := by
  rcases List.any_eq_true.1 h with ⟨e, he, hm⟩
  exact List.countP_pos_iff.2 ⟨e, he, by simpa using hm⟩

lemma any_of_pairCount_pos (store : List Follower) (f t : String)
    (h : 0 < pairCount store f t) :
    store.any (fun e => matchesEdge e f t) = true := by
  rcases List.countP_pos_iff.1 h with ⟨e, he, hm⟩
  exact List.any_eq_true.2 ⟨e, he, by simpa using hm⟩

lemma pairCount_getOrCreate (store : List Follower) (f t : String)
    (hinv : pairCount store f t ≤ 1) :
    pairCount (getOrCreateFollower store f t) f t = 1 := by
  unfold getOrCreateFollower
  by_cases h : store.any (fun e => matchesEdge e f t) = true
  · rw [if_pos h, pairCount_update]
    exact Nat.le_antisymm hinv (pairCount_pos_of_any store f t h)
  · rw [if_neg h]
    have h0 : pairCount store f t = 0 := by
      by_contra hne
      exact h (any_of_pairCount_pos store f t (Nat.pos_of_ne_zero hne))
    unfold pairCount at h0 ⊢
    rw [List.countP_append, h0]
    simp [matchesEdge]

/-- C1: with two delivery targets where the owning protocol's `send`
raises a delivery fault for the first and succeeds for the second, the
pipeline catches the fault, still attempts the second target, and the
persisted record ends with `delivered = [t2]`, `failed = [t1]` and
`status = complete`. -/
theorem c1_delivery_fault_isolated (send : String → Except String Unit)
    (t1 t2 e : String)
    (h1 : send t1 = Except.error e) (h2 : send t2 = Except.ok ()) :
    deliverAll send [t1, t2] = ⟨[t2], [t1], ObjStatus.complete⟩ := by
  simp [deliverAll, h1, h2]

theorem c1_delivery_fault_isolated_witness :
    deliverAll
      (fun t => if t == "target:1" then Except.error "BadRequest" else Except.ok ())
      ["target:1", "target:2"]
      = ⟨["target:2"], ["target:1"], ObjStatus.complete⟩ :=
  c1_delivery_fault_isolated _ "target:1" "target:2" "BadRequest" rfl rfl

/-- C2: processing the same follow twice for the ordered (from_, to) pair
produces exactly one Follower edge; and when an edge for the pair already
exists with status `inactive`, processing the follow sets it back to
`active` in place — the store is updated edge-for-edge, keeps its length,
and ends with exactly one edge for the pair — rather than creating a
second edge. -/
theorem c2_follow_idempotent (store : List Follower) (f t : String)
    (hinv : pairCount store f t ≤ 1) :
    pairCount (getOrCreateFollower (getOrCreateFollower store f t) f t) f t = 1
    ∧ (∀ e ∈ store, matchesEdge e f t = true → e.status = FStatus.inactive →
        getOrCreateFollower store f t
          = store.map (fun e2 =>
              if matchesEdge e2 f t then { e2 with status := FStatus.active } else e2)
        ∧ (getOrCreateFollower store f t).length = store.length
        ∧ pairCount (getOrCreateFollower store f t) f t = 1) := by
  constructor
  · have h1 := pairCount_getOrCreate store f t hinv
    exact pairCount_getOrCreate _ f t (Nat.le_of_eq h1)
  · intro e he hm _
    have hany : store.any (fun e2 => matchesEdge e2 f t) = true :=
      List.any_eq_true.2 ⟨e, he, by simpa using hm⟩
    refine ⟨by simp [getOrCreateFollower, hany], ?_, pairCount_getOrCreate store f t hinv⟩
    simp [getOrCreateFollower, hany]

theorem c2_follow_idempotent_witness :
    pairCount
      (getOrCreateFollower
        (getOrCreateFollower [⟨"fake:alice", "fake:user", FStatus.inactive⟩]
          "fake:alice" "fake:user")
        "fake:alice" "fake:user")
      "fake:alice" "fake:user" = 1
    ∧ getOrCreateFollower [⟨"fake:alice", "fake:user", FStatus.inactive⟩]
        "fake:alice" "fake:user"
        = [⟨"fake:alice", "fake:user", FStatus.active⟩] := by
  have h := c2_follow_idempotent [⟨"fake:alice", "fake:user", FStatus.inactive⟩]
    "fake:alice" "fake:user" (by decide)
  refine ⟨h.1, ?_⟩
  have h2 := h.2 ⟨"fake:alice", "fake:user", FStatus.inactive⟩ (by decide)
    (by decide) rfl
  rw [h2.1]
  decide

/-- C3: `forId` resolves ownership in strict order — a registered
protocol's static no-I/O ownership test wins first; only with no static
owner is a stored Canonical Object consulted (owned by its
`sourceProtocol` when set, and None — not a guess — when the stored record
has none, remote probes never consulted); only when nothing is stored is
remote content-negotiation probing attempted; and an identifier for which
every stage fails resolves to None. -/
theorem c3_forId_resolution_order (registry : List ProtocolImpl)
    (store : String → Option StoredRef) (i : String) :
    (∀ p, registry.find? (fun q => q.ownsId i) = some p →
        forId registry store i = some p.name)
    ∧ (registry.find? (fun q => q.ownsId i) = none →
        ∀ o, store i = some o → forId registry store i = o.sourceProtocol)
    ∧ (registry.find? (fun q => q.ownsId i) = none → store i = none →
        forId registry store i
          = (registry.find? (fun p => probeOwns p i)).map (fun p => p.name))
    ∧ (registry.find? (fun q => q.ownsId i) = none → store i = none →
        (∀ p ∈ registry, probeOwns p i = false) →
        forId registry store i = none) := by
  refine ⟨?_, ?_, ?_, ?_⟩
  · intro p hp
    simp [forId, hp]
  · intro h o ho
    simp [forId, h, ho]
  · intro h hs
    simp [forId, h, hs]
  · intro h hs hall
    have hfind : registry.find? (fun p => probeOwns p i) = none :=
      List.find?_eq_none.2 (fun p hp => by simp [hall p hp])
    simp [forId, h, hs, hfind]

theorem c3_forId_resolution_order_witness :
    forId
      [⟨"fake", fun s => s == "fake:foo", fun _ => Except.error "nofetch"⟩,
       ⟨"atproto", fun s => s == "at://foo", fun _ => Except.error "nofetch"⟩]
      (fun s => if s == "http://bad/obj" then some ⟨none⟩ else none)
      "fake:foo" = some "fake"
    ∧ forId
      [⟨"fake", fun s => s == "fake:foo", fun _ => Except.error "nofetch"⟩,
       ⟨"atproto", fun s => s == "at://foo", fun _ => Except.error "nofetch"⟩]
      (fun s => if s == "http://bad/obj" then some ⟨none⟩ else none)
      "http://bad/obj" = none
    ∧ forId
      [⟨"fake", fun s => s == "fake:foo", fun _ => Except.error "nofetch"⟩,
       ⟨"atproto", fun s => s == "at://foo", fun _ => Except.error "nofetch"⟩]
      (fun s => if s == "http://bad/obj" then some ⟨none⟩ else none)
      "foo://bar" = none := by
  refine ⟨?_, ?_, ?_⟩
  · exact (c3_forId_resolution_order
      [⟨"fake", fun s => s == "fake:foo", fun _ => Except.error "nofetch"⟩,
       ⟨"atproto", fun s => s == "at://foo", fun _ => Except.error "nofetch"⟩]
      (fun s => if s == "http://bad/obj" then some ⟨none⟩ else none)
      "fake:foo").1
      ⟨"fake", fun s => s == "fake:foo", fun _ => Except.error "nofetch"⟩ rfl
  · exact (c3_forId_resolution_order
      [⟨"fake", fun s => s == "fake:foo", fun _ => Except.error "nofetch"⟩,
       ⟨"atproto", fun s => s == "at://foo", fun _ => Except.error "nofetch"⟩]
      (fun s => if s == "http://bad/obj" then some ⟨none⟩ else none)
      "http://bad/obj").2.1 rfl ⟨none⟩ rfl
  · exact (c3_forId_resolution_order
      [⟨"fake", fun s => s == "fake:foo", fun _ => Except.error "nofetch"⟩,
       ⟨"atproto", fun s => s == "at://foo", fun _ => Except.error "nofetch"⟩]
      (fun s => if s == "http://bad/obj" then some ⟨none⟩ else none)
      "foo://bar").2.2.2 rfl rfl
      (by intro p hp; fin_cases hp <;> rfl)

/-- C9: during `forId` remote content-negotiation probing, a fetch fault
(access-denied response, unparsable document) never raises past the
resolution boundary: the probe yields non-ownership, resolution proceeds
to the next protocol, and when every protocol's probe faults the id
resolves to None. -/
theorem c9_fetch_fault_nonownership (registry : List ProtocolImpl)
    (store : String → Option StoredRef) (i : String)
    (hstatic : registry.find? (fun q => q.ownsId i) = none)
    (hstore : store i = none) :
    (∀ p e, p.rawFetch i = Except.error e → probeOwns p i = false)
    ∧ ((∀ p ∈ registry, ∃ e, p.rawFetch i = Except.error e) →
        forId registry store i = none)
    ∧ (∀ p rest, registry = p :: rest →
        (∃ e, p.rawFetch i = Except.error e) →
        forId registry store i
          = (rest.find? (fun q => probeOwns q i)).map (fun q => q.name)) := by
  refine ⟨?_, ?_, ?_⟩
  · intro p e he
    simp [probeOwns, he]
  · intro hall
    have hfind : registry.find? (fun p => probeOwns p i) = none :=
      List.find?_eq_none.2 (fun p hp => by
        rcases hall p hp with ⟨e, he⟩
        simp [probeOwns, he])
    simp [forId, hstatic, hstore, hfind]
  · rintro p rest hreg ⟨e, he⟩
    subst hreg
    have hp : probeOwns p i = false := by simp [probeOwns, he]
    rw [forId, hstatic, hstore,
      List.find?_cons_of_neg _ (by simp [hp])]

theorem c9_fetch_fault_nonownership_witness :
    forId [⟨"activitypub", fun _ => false, fun _ => Except.error "403 Forbidden"⟩]
      (fun _ => none) "http://ap/actor" = none := by
  have h := c9_fetch_fault_nonownership
    [⟨"activitypub", fun _ => false, fun _ => Except.error "403 Forbidden"⟩]
    (fun _ => none) "http://ap/actor" rfl rfl
  exact h.2.1 (List.forall_mem_singleton.2 ⟨"403 Forbidden", rfl⟩)

/-- C4 counterexample: the stored actor `fake:alice` (origin protocol
`fake`) carries the copies entry (`atproto`, `did:plc:alice`) — a copy for
a different protocol — and a mention references `did:plc:alice`.  The
resolver delivers to the original's address ("fake:alice:target" on
`fake`) and to no target of the copy's protocol `atproto`, refuting the
claim that delivery goes to the copy's (protocol, address) rather than the
original's. -/
theorem c4_copy_substitution_counterexample :
    targetsFor [⟨"fake:alice", "fake", [⟨"atproto", "did:plc:alice"⟩]⟩]
        ["did:plc:alice"]
      = [("fake", "fake:alice:target")]
    ∧ ∀ pt ∈ targetsFor [⟨"fake:alice", "fake", [⟨"atproto", "did:plc:alice"⟩]⟩]
        ["did:plc:alice"], pt.1 ≠ "atproto" := by
  constructor
  · rfl
  · decide

/-- C4 (amended): a mention/reply reference naming a uri registered as a
`copies` entry of a stored actor or object is converted back to its
original, and the Delivery Target Resolver delivers to the original's
(protocol, address); the resulting target set is duplicate-free, so the
logical recipient is addressed once per (protocol, address). -/
theorem c4_copies_convert_to_originals (world : List Canonical)
    (refs : List String) (uri : String) (o : Canonical)
    (hres : world.find? (fun w => w.copies.any (fun c => c.uri == uri)) = some o)
    (hmem : uri ∈ refs) :
    (o.protocol, o.id ++ ":target") ∈ targetsFor world refs
    ∧ (targetsFor world refs).Nodup := by
  refine ⟨?_, List.nodup_dedup _⟩
  have hr : resolveRef world uri = some (o.protocol, o.id ++ ":target") := by
    simp [resolveRef, hres]
  exact List.mem_dedup.2 (List.mem_filterMap.2 ⟨uri, hmem, hr⟩)

theorem c4_copies_convert_to_originals_witness :
    ("fake", "fake:alice:target")
      ∈ targetsFor [⟨"fake:alice", "fake", [⟨"atproto", "did:plc:alice"⟩]⟩]
        ["did:plc:alice"]
    ∧ (targetsFor [⟨"fake:alice", "fake", [⟨"atproto", "did:plc:alice"⟩]⟩]
        ["did:plc:alice"]).Nodup :=
  c4_copies_convert_to_originals
    [⟨"fake:alice", "fake", [⟨"atproto", "did:plc:alice"⟩]⟩]
    ["did:plc:alice"] "did:plc:alice"
    ⟨"fake:alice", "fake", [⟨"atproto", "did:plc:alice"⟩]⟩
    rfl (by decide)

/-- C7: processing a delete of an actor tombstones that actor's Canonical
Object (`deleted = true`, `sourceProtocol = null`) and deactivates every
Follower edge in which the actor appears as `from_` or `to`, while every
other edge keeps its prior status and no edge is removed (the store keeps
the same edges, pointwise, with only the touched statuses changed). -/
theorem c7_delete_actor_deactivates (actorId : String) (o : CObj)
    (fs : List Follower) :
    (tombstone o).deleted = true
    ∧ (tombstone o).sourceProtocol = none
    ∧ (deactivateFor actorId fs).length = fs.length
    ∧ List.Forall₂ (fun e e2 =>
        e2.from_ = e.from_ ∧ e2.to_ = e.to_ ∧
        e2.status = (if e.from_ == actorId || e.to_ == actorId
                     then FStatus.inactive else e.status))
        fs (deactivateFor actorId fs) := by
  refine ⟨rfl, rfl, by simp [deactivateFor], ?_⟩
  unfold deactivateFor
  induction fs with
  | nil => exact List.Forall₂.nil
  | cons f rest ih =>
    refine List.Forall₂.cons ?_ ih
    by_cases h : (f.from_ == actorId || f.to_ == actorId) = true
    · simp [h]
    · simp [h]

/-- C8: a load served from the Object Cache hands the caller an
independent defensive copy — the caller receives the cached payload at a
fresh address; mutating the received object leaves the cache's own cell
unchanged, and a subsequent load of the same id still returns the original
payload, unaffected by the caller's mutation. -/
theorem c8_load_returns_defensive_copy (s : CacheState) (i : String)
    (a : Nat) (p : String)
    (ha : cacheAddr s i = some a) (hp : heapGet s a = some p) :
    ∃ a2 s2, loadCached s i = some (a2, s2)
      ∧ heapGet s2 a2 = some p
      ∧ ∀ q, heapGet (mutateAt s2 a2 q) a2 = some q
        ∧ heapGet (mutateAt s2 a2 q) a = some p
        ∧ ∃ a3 s3, loadCached (mutateAt s2 a2 q) i = some (a3, s3)
          ∧ heapGet s3 a3 = some p := by
  have hlt : a < s.heap.length := by
    rcases List.getElem?_eq_some.1 hp with ⟨h, -⟩
    exact h
  have hload : loadCached s i = some (s.heap.length, ⟨s.heap ++ [p], s.cache⟩) := by
    simp only [loadCached, ha, hp]
  refine ⟨s.heap.length, ⟨s.heap ++ [p], s.cache⟩, hload, ?_, ?_⟩
  · exact List.getElem?_concat_length s.heap p
  · intro q
    have hne : s.heap.length ≠ a := Nat.ne_of_gt hlt
    have hmutq : heapGet (mutateAt ⟨s.heap ++ [p], s.cache⟩ s.heap.length q)
        s.heap.length = some q := by
      apply List.getElem?_set_self
      simp [Nat.lt_succ_of_le (Nat.le_refl _)]
    have hmuta : heapGet (mutateAt ⟨s.heap ++ [p], s.cache⟩ s.heap.length q)
        a = some p := by
      show ((s.heap ++ [p]).set s.heap.length q)[a]? = some p
      rw [List.getElem?_set_ne hne, List.getElem?_append_left hlt]
      exact hp
    refine ⟨hmutq, hmuta, ?_⟩
    have ha2 : cacheAddr (mutateAt ⟨s.heap ++ [p], s.cache⟩ s.heap.length q) i
        = some a := ha
    refine ⟨((s.heap ++ [p]).set s.heap.length q).length,
      ⟨(s.heap ++ [p]).set s.heap.length q ++ [p], s.cache⟩, ?_, ?_⟩
    · have ha3 := ha2
      have hmuta2 := hmuta
      simp only [mutateAt] at ha3 hmuta2
      simp only [loadCached, mutateAt, ha3, hmuta2]
    · exact List.getElem?_concat_length _ p

theorem c8_load_returns_defensive_copy_witness :
    ∃ a2 s2, loadCached ⟨["xy"], [("foo", 0)]⟩ "foo" = some (a2, s2)
      ∧ heapGet s2 a2 = some "xy"
      ∧ ∀ q, heapGet (mutateAt s2 a2 q) a2 = some q
        ∧ heapGet (mutateAt s2 a2 q) 0 = some "xy"
        ∧ ∃ a3 s3, loadCached (mutateAt s2 a2 q) "foo" = some (a3, s3)
          ∧ heapGet s3 a3 = some "xy" :=
  c8_load_returns_defensive_copy ⟨["xy"], [("foo", 0)]⟩ "foo" 0 "xy" rfl rfl

/-- C5: when every computed target of a received follow is excluded as a
self-loop (actor and target share identity or domain), the primary
activity's status becomes `ignored` and a no-content signal is raised to
the caller, with nothing delivered for the primary activity — while the
synthetic accept generated for each excluded follow target is still
independently delivered to the follower's target. -/
theorem c5_self_loop_all_excluded (store : List Follower)
    (followId actor : String) (followees : List String)
    (send : String → Except String Unit)
    (_hne : followees ≠ [])
    (hall : ∀ o ∈ followees, isSelfLoop actor o = true) :
    (receiveFollow store followId actor followees send).status = ObjStatus.ignored
    ∧ (receiveFollow store followId actor followees send).noContent = true
    ∧ (receiveFollow store followId actor followees send).delivered = []
    ∧ (receiveFollow store followId actor followees send).acceptsSent
        = followees.map (fun o => (acceptIdFor o followId, actor ++ ":target")) := by
  have hfilter : followees.filter (fun o => !(isSelfLoop actor o)) = [] := by
    apply List.filter_eq_nil_iff.2
    intro o ho
    simp [hall o ho]
  refine ⟨?_, ?_, ?_, ?_⟩ <;> simp [receiveFollow, hfilter]

theorem c5_self_loop_all_excluded_witness :
    (receiveFollow [] "http://x.com/follow" "http://x.com/alice"
      ["http://x.com/bob", "http://x.com/eve"]
      (fun _ => Except.ok ())).status = ObjStatus.ignored
    ∧ (receiveFollow [] "http://x.com/follow" "http://x.com/alice"
        ["http://x.com/bob", "http://x.com/eve"]
        (fun _ => Except.ok ())).noContent = true
    ∧ (receiveFollow [] "http://x.com/follow" "http://x.com/alice"
        ["http://x.com/bob", "http://x.com/eve"]
        (fun _ => Except.ok ())).delivered = []
    ∧ (receiveFollow [] "http://x.com/follow" "http://x.com/alice"
        ["http://x.com/bob", "http://x.com/eve"]
        (fun _ => Except.ok ())).acceptsSent
        = [("https://fa.brid.gy/ap/http://x.com/bob/followers#accept-http://x.com/follow",
            "http://x.com/alice:target"),
           ("https://fa.brid.gy/ap/http://x.com/eve/followers#accept-http://x.com/follow",
            "http://x.com/alice:target")] := by
  have h := c5_self_loop_all_excluded [] "http://x.com/follow" "http://x.com/alice"
    ["http://x.com/bob", "http://x.com/eve"] (fun _ => Except.ok ())
    (by decide) (by decide)
  refine ⟨h.1, h.2.1, h.2.2.1, ?_⟩
  rw [h.2.2.2]
  decide

/-- C6: an inbound bare object whose id has no stored Canonical Object
record yields a synthesized `post` (Create) activity with id
`<objectId>#bridgy-fed-create`, delivered to the author's active
followers' shared target, persisted with status `complete`. -/
theorem c6_bare_object_synthesizes_create (followers : List Follower)
    (objId payload author now : String) (send : String → Except String Unit)
    (hact : activeFollowersOf followers author ≠ [])
    (hsend : send "shared:target" = Except.ok ()) :
    receiveBare none followers objId payload author now send
      = some ⟨objId ++ "#bridgy-fed-create",
              (activeFollowersOf followers author).map (fun f => f.from_),
              ⟨["shared:target"], [], ObjStatus.complete⟩⟩ := by
  have hne : (activeFollowersOf followers author).isEmpty = false := by
    simpa [List.isEmpty_iff] using hact
  simp [receiveBare, synthesizeWrapper, hne, deliverAll, hsend]

theorem c6_bare_object_synthesizes_create_witness :
    receiveBare none
      [⟨"fake:alice", "fake:user", FStatus.active⟩,
       ⟨"fake:bob", "fake:user", FStatus.active⟩,
       ⟨"fake:eve", "fake:user", FStatus.inactive⟩]
      "fake:post" "note" "fake:user" "2022-01-02T03:04:05+00:00"
      (fun _ => Except.ok ())
      = some ⟨"fake:post#bridgy-fed-create", ["fake:alice", "fake:bob"],
              ⟨["shared:target"], [], ObjStatus.complete⟩⟩ := by
  have h := c6_bare_object_synthesizes_create
    [⟨"fake:alice", "fake:user", FStatus.active⟩,
     ⟨"fake:bob", "fake:user", FStatus.active⟩,
     ⟨"fake:eve", "fake:user", FStatus.inactive⟩]
    "fake:post" "note" "fake:user" "2022-01-02T03:04:05+00:00"
    (fun _ => Except.ok ()) (by decide) rfl
  exact h.trans (by decide)

lemma isJObj_fields (o : J) (h : isJObj o = true) : ∃ fs, o = J.obj fs := by
  cases o
  case obj fields => exact ⟨fields, rfl⟩
  all_goals simp [isJObj] at h

lemma isJObj_of_jGet_str (o : J) (k t : String) (h : jGet o k = J.str t) :
    isJObj o = true := by
  cases o
  case obj fields => rfl
  all_goals simp [jGet] at h

/-- C10 counterexample: the body `{"type": ["Like"]}` parses as JSON and
its unwrapped object has no url, so the claim asserts a client-error
rejection — but `TYPE_TO_VERB.get` on the unhashable list value raises an
uncaught `TypeError`, a 500 server error, before any rejection check (the
handler's `try/except` wraps only `json.loads`).  Likewise a body parsing
to a non-object raises an uncaught `AttributeError` at `obj.get('type')`
instead of being rejected with a client error. -/
theorem c10_server_error_counterexample :
    inboxPost (fun t => if t == "Like" then some "like" else none)
      (some (J.obj [("type", J.arr [J.str "Like"])]))
      (fun _ _ => Except.ok ())
      = Except.error PyError.typeError
    ∧ jTruthy (jGet (unwrapped (J.obj [("type", J.arr [J.str "Like"])])) "url")
      = false
    ∧ inboxPost (fun t => if t == "Like" then some "like" else none)
      (some (J.arr [J.str "Like"]))
      (fun _ _ => Except.ok ())
      = Except.error PyError.attributeError :=
  ⟨rfl, rfl, rfl⟩

/-- C10 (amended): for every POST whose body either fails JSON parsing or
parses to a JSON object whose `type` value is hashable (absent or a
string) and whose unwrapped object is itself a JSON object, the
ActivityPub inbox handler rejects the request before sending any
webmention — a client-error HTTP 400 with an empty list of attempted
sends — when the body is not parseable JSON, when the activity's type maps
to a verb other than Create or Update, when the unwrapped object has no
url, or when it has neither an `inReplyTo` nor a `like` target.  (A body
parsing to a non-object, or an unhashable `type` value, instead raises an
uncaught exception — a 500 server error, not a client-error rejection.) -/
theorem c10_inbox_rejections (typeToVerb : String → Option String)
    (wmSend : String → String → Except (Option Nat) Unit) :
    inboxPost typeToVerb none wmSend = Except.ok ⟨[], some 400⟩
    ∧ (∀ o t v, jGet o "type" = J.str t → typeToVerb t = some v →
        v ≠ "" → v ≠ "Create" → v ≠ "Update" →
        inboxPost typeToVerb (some o) wmSend = Except.ok ⟨[], some 400⟩)
    ∧ (∀ o, isJObj o = true → hashableType (jGet o "type") = true →
        isJObj (unwrapped o) = true →
        jTruthy (jGet (unwrapped o) "url") = false →
        inboxPost typeToVerb (some o) wmSend = Except.ok ⟨[], some 400⟩)
    ∧ (∀ o, isJObj o = true → hashableType (jGet o "type") = true →
        isJObj (unwrapped o) = true →
        jGetList (unwrapped o) "inReplyTo" = [] →
        jGetList (unwrapped o) "like" = [] →
        inboxPost typeToVerb (some o) wmSend = Except.ok ⟨[], some 400⟩) := by
  refine ⟨rfl, ?_, ?_, ?_⟩
  · intro o t v ht hv hne hnc hnu
    have ho : isJObj o = true := isJObj_of_jGet_str o "type" t ht
    have h1 : (v == "") = false := beq_eq_false_iff_ne.2 hne
    have h2 : (v == "Create") = false := beq_eq_false_iff_ne.2 hnc
    have h3 : (v == "Update") = false := beq_eq_false_iff_ne.2 hnu
    simp [inboxPost, ho, ht, hashableType, hv, h1, h2, h3]
  · intro o ho hh hio hurl
    simp only [inboxPost, ho, hh, Bool.not_true, Bool.false_eq_true,
      if_false]
    split
    · rfl
    · simp [hio, hurl]
  · intro o ho hh hio h1 h2
    simp only [inboxPost, ho, hh, Bool.not_true, Bool.false_eq_true,
      if_false]
    split
    · rfl
    · simp only [hio, Bool.not_true, Bool.false_eq_true, if_false]
      split
      · rfl
      · simp [h1, h2]

theorem c10_inbox_rejections_witness :
    inboxPost (fun t => if t == "Like" then some "like" else none) none
      (fun _ _ => Except.ok ()) = Except.ok ⟨[], some 400⟩
    ∧ inboxPost (fun t => if t == "Like" then some "like" else none)
        (some (J.obj [("type", J.str "Like")])) (fun _ _ => Except.ok ())
        = Except.ok ⟨[], some 400⟩
    ∧ inboxPost (fun t => if t == "Like" then some "like" else none)
        (some (J.obj [("type", J.str "Create"),
          ("object", J.obj [("content", J.str "hi")])]))
        (fun _ _ => Except.ok ())
        = Except.ok ⟨[], some 400⟩
    ∧ inboxPost (fun t => if t == "Like" then some "like" else none)
        (some (J.obj [("object",
          J.obj [("url", J.str "http://a/post")])]))
        (fun _ _ => Except.ok ())
        = Except.ok ⟨[], some 400⟩ := by
  have h := c10_inbox_rejections (fun t => if t == "Like" then some "like" else none)
    (fun _ _ => Except.ok ())
  refine ⟨h.1, ?_, ?_, ?_⟩
  · exact h.2.1 (J.obj [("type", J.str "Like")]) "Like" "like" rfl rfl
      (by decide) (by decide) (by decide)
  · exact h.2.2.1
      (J.obj [("type", J.str "Create"),
        ("object", J.obj [("content", J.str "hi")])]) rfl rfl rfl rfl
  · exact h.2.2.2
      (J.obj [("object", J.obj [("url", J.str "http://a/post")])])
      rfl rfl rfl rfl rfl

end BridgyFed
